import Mathlib

/-!
Verification development for the lorca Chrome DevTools protocol client
(`chrome.go`, `ui.go`).  The Go source is shallowly embedded: every
definition below mirrors a function or data shape of `chrome.go`; Go maps
become association lists, `json.RawMessage` becomes `Option String`
(`none` = Go `nil`), fallible calls become `Except String`, and the
outcomes of external collaborators (websocket reads/writes, the spawned
process, JSON marshalling) are passed in as explicit parameters.
-/

set_option autoImplicit false

namespace Lorca

/-- The fields of Go's `targetMessage` / `targetMessageTemplate`
(chrome.go lines 218-252) that `readLoop` consults, flattened:
`id` = `res.ID`, `method` = `res.Method`, `paramsName` = `res.Params.Name`,
`paramsPayload` = `res.Params.Payload`, `paramsContextId` = `res.Params.ID`,
`errorMessage` = `res.Error.Message`,
`resultType`/`resultSubtype`/`resultDescription`/`resultValue` =
`res.Result.Result.{Type,Subtype,Description,Value}`,
`exceptionValue` = `res.Result.Exception.Exception.Value`, and
`rawResult` = the whole raw `result` field as re-decoded into
`targetMessageTemplate` by the fallback branch (line 330-331).
Go zero values after `json.Unmarshal`: `0`, `""`, `nil`. -/
structure TargetMsg where
  id : Nat := 0
  method : String := ""
  paramsName : String := ""
  paramsPayload : String := ""
  paramsContextId : Nat := 0
  errorMessage : String := ""
  resultType : String := ""
  resultSubtype : String := ""
  resultDescription : String := ""
  resultValue : Option String := none
  exceptionValue : Option String := none
  rawResult : Option String := none
  deriving DecidableEq, Repr

/-- The value delivered to a waiter: Go's `result` struct (chrome.go lines
22-25), which carries either an error (`Err`) or a raw JSON value. -/
inductive Outcome where
  | remoteError (msg : String)
  | value (raw : Option String)
  deriving DecidableEq, Repr

/-- The outcome-decoding cascade of `readLoop`, chrome.go lines 321-333:
`if res.Error.Message != "" { Err }
else if res.Result.Exception.Exception.Value != nil { Err }
else if res.Result.Result.Type == "object" && res.Result.Result.Subtype == "error" { Err }
else if res.Result.Result.Type != "" { Value }
else { re-decode as targetMessageTemplate; Value res.Result }`. -/
def decodeOutcome (m : TargetMsg) : Outcome :=
  if m.errorMessage ≠ "" then .remoteError m.errorMessage
  else
    match m.exceptionValue with
    | some v => .remoteError v
    | none =>
      if m.resultType = "object" ∧ m.resultSubtype = "error" then
        .remoteError m.resultDescription
      else if m.resultType ≠ "" then .value m.resultValue
      else .value m.rawResult

/-- Modelled from the spec's words (§4.3 precedence list), for comparison
with `decodeOutcome`: the spec orders the cases (1) top-level error,
(2) subtype-"error" object result, (3) exception-detail payload,
(4) typed result, (5) generic fallback — i.e. with (2) BEFORE (3). -/
def decodeOutcomeSpecOrder (m : TargetMsg) : Outcome :=
  if m.errorMessage ≠ "" then .remoteError m.errorMessage
  else if m.resultType = "object" ∧ m.resultSubtype = "error" then
    .remoteError m.resultDescription
  else
    match m.exceptionValue with
    | some v => .remoteError v
    | none =>
      if m.resultType ≠ "" then .value m.resultValue
      else .value m.rawResult

/-- Where `readLoop` routes an inner session-scoped message
(chrome.go lines 273-333): the first guard is Go's
`res.ID == 0 && res.Method == "Runtime.consoleAPICalled" || res.Method == "Runtime.exceptionThrown"`,
in which `&&` binds tighter than `||`; the second is
`res.ID == 0 && res.Method == "Runtime.bindingCalled"`; everything else
falls through to the pending-request lookup keyed by `res.ID`. -/
inductive Route where
  | log
  | bindingCall
  | reply (id : Nat)
  deriving DecidableEq, Repr

/-- The branch structure of `readLoop` on an inner message,
chrome.go lines 273-313. -/
def route (m : TargetMsg) : Route :=
  if (m.id = 0 ∧ m.method = "Runtime.consoleAPICalled") ∨
      m.method = "Runtime.exceptionThrown" then .log
  else if m.id = 0 ∧ m.method = "Runtime.bindingCalled" then .bindingCall
  else .reply m.id

/-- The correlator state of a `Chrome` value (chrome.go lines 39-49):
`counter` is the atomically incremented request-id counter `c.id`
(initialized to 2, line 55; the Int32 cannot wrap for any feasible number
of sends, so it is modelled as `Nat`), and `pending` is the key set of the
`c.pending` map from request id to waiter channel. -/
structure CorrState where
  counter : Nat
  pending : List Nat
  deriving DecidableEq, Repr

/-- `NewChromeWithArgs` starts with `id: 2` and an empty pending map
(chrome.go lines 54-58). -/
def initState : CorrState := ⟨2, []⟩

/-- What `Send` returns, chrome.go lines 349-369: the marshal error (before
the waiter is registered), the transport write error (after the waiter is
registered), or a blocking wait on the freshly registered waiter. -/
inductive SendResult where
  | marshalErr (e : String)
  | writeErr (e : String)
  | awaiting (id : Nat)
  deriving DecidableEq, Repr

/-- `Send` (chrome.go lines 349-369) with the outcomes of the two external
calls (`json.Marshal`, `websocket.JSON.Send`) passed in: allocate
`id := atomic.AddInt32(&c.id, 1)`; if marshalling fails return the error
(no waiter registered); otherwise register `c.pending[id] = resc` under the
lock and write the wrapped frame; a write error is returned to the caller
with NO removal of the just-registered entry; on success the caller blocks
on the waiter. -/
def send (s : CorrState) (marshal write : Except String Unit) :
    CorrState × SendResult :=
  let id := s.counter + 1
  match marshal with
  | .error e => ({ s with counter := id }, .marshalErr e)
  | .ok _ =>
    match write with
    | .error e => (⟨id, id :: s.pending⟩, .writeErr e)
    | .ok _ => (⟨id, id :: s.pending⟩, .awaiting id)

/-- The events that touch the pending table over a connection's life:
a `Send` call (with the marshal/write outcomes), the Dispatcher delivering
an inner message carrying reply id `i` (chrome.go lines 312-319), and
`Kill` / connection teardown (chrome.go lines 580-591, whose body has only
the comment `TODO: cancel all pending requests` for the table). -/
inductive Event where
  | send (marshal write : Except String Unit)
  | reply (i : Nat)
  | kill
  deriving Repr

/-- One step of the pending-table state machine.  `reply i` performs
`delete(c.pending, res.ID)` (a no-op when the key is absent); `kill`
leaves the table untouched. -/
def step (s : CorrState) : Event → CorrState
  | .send m w => (send s m w).1
  | .reply i => { s with pending := s.pending.filter (· ≠ i) }
  | .kill => s

/-- The state after a trace of events, starting from `NewChromeWithArgs`'s
initial state. -/
def run (tr : List Event) : CorrState := tr.foldl step initState

/-- What the Dispatcher does with one inner session-scoped message
(chrome.go lines 273-333): write it to the diagnostic log
(`log.Println`), spawn a task running the registered binding handler
(`go func() {...}`), deliver a decoded outcome to the waiter of a pending
request, or drop it (`continue`). -/
inductive DispatchEffect where
  | logSink
  | spawnHandler (name : String)
  | deliver (id : Nat) (out : Outcome)
  | drop
  deriving DecidableEq, Repr

/-- The Dispatcher's handling of one inner message, chrome.go lines
273-333: route it; a binding call looks up `c.bindings[res.Params.Name]`
(`bindings` here is the key set of that registry) and spawns the handler
if found, then `continue`s either way; the reply path removes the entry
for `res.ID` and delivers `decodeOutcome` to it, or drops the message when
no entry exists. -/
def dispatchInner (bindings : List String) (s : CorrState) (m : TargetMsg) :
    CorrState × DispatchEffect :=
  match route m with
  | .log => (s, .logSink)
  | .bindingCall =>
    if m.paramsName ∈ bindings then (s, .spawnHandler m.paramsName)
    else (s, .drop)
  | .reply i =>
    if i ∈ s.pending then
      ({ s with pending := s.pending.filter (· ≠ i) }, .deliver i (decodeOutcome m))
    else (s, .drop)

/-- Hex digit used by Go `encoding/json` in `\u00XX` escapes (lower case). -/
def hexDigit (n : Nat) : Char :=
  if n < 10 then Char.ofNat (48 + n) else Char.ofNat (87 + n)

/-- Escaping of one character by Go `json.Marshal` on a string value (the
default HTML-escaping encoder used by `jsString`, chrome.go line 287):
`"` and `\` are backslash-escaped, newline/carriage-return/tab use the
short forms, `<`, `>`, `&` and remaining control characters become
`\u00XX`, everything else is copied. -/
def escChar (c : Char) : List Char :=
  if c = '"' then ['\\', '"']
  else if c = '\\' then ['\\', '\\']
  else if c = '\n' then ['\\', 'n']
  else if c = '\r' then ['\\', 'r']
  else if c = '\t' then ['\\', 't']
  else if c = '<' then ['\\', 'u', '0', '0', '3', 'c']
  else if c = '>' then ['\\', 'u', '0', '0', '3', 'e']
  else if c = '&' then ['\\', 'u', '0', '0', '2', '6']
  else if c.toNat < 32 then
    ['\\', 'u', '0', '0', hexDigit (c.toNat / 16), hexDigit (c.toNat % 16)]
  else [c]

/-- Go-json escaping of a whole character list. -/
def goJsonEscape : List Char → List Char
  | [] => []
  | c :: cs => escChar c ++ goJsonEscape cs

/-- `jsString` (chrome.go line 287): `json.Marshal` of a Go string, i.e.
the JSON string literal for `s`. -/
def jsString (s : String) : String :=
  String.mk ('"' :: (goJsonEscape s.data ++ ['"']))

/-- The `(result, error)` pair of interpolation texts computed by the
spawned binding task, chrome.go lines 289-296: `result` starts as the
empty text and `error` starts as the two-character JSON literal for the
empty string — then on handler failure (or a failed
`json.Marshal` of the handler's result) `error = jsString(msg)`, and on
success `result = string(b)`.  The combined outcome of
`binding(payload.Args)` followed by `json.Marshal(r)` is passed in as an
`Except`: `.error msg` carries `err.Error()`, `.ok b` carries the
marshalled bytes. -/
def bindingResultError : Except String String → String × String
  | .error e => ("", jsString e)
  | .ok b => (b, jsString "")

/-- The page-global settle-pair tables installed by the `Bind` shim
(chrome.go lines 463-487): the sequence numbers currently present in
`window[name]['callbacks']` and `window[name]['errors']`. -/
structure PageTables where
  callbacks : List Nat
  errors : List Nat
  deriving DecidableEq, Repr

/-- `callbacks.delete(seq); errors.delete(seq)` — the two `Map.delete`
calls of the completion script. -/
def PageTables.erase (t : PageTables) (seq : Nat) : PageTables :=
  ⟨t.callbacks.filter (· ≠ seq), t.errors.filter (· ≠ seq)⟩

/-- How the completion script settles the page-side promise: it calls
either `callbacks.get(seq)(<text>)` (resolve) or `errors.get(seq)(<text>)`
(reject), where `<text>` is the interpolated JavaScript expression text. -/
inductive Settle where
  | resolve (argText : String)
  | reject (argText : String)
  deriving DecidableEq, Repr

/-- JavaScript truthiness of the interpolated `error` text in the
completion script's `if (%[4]s)` test.  The interpolated text is always a
JSON string literal (the initial backquoted empty literal or
`jsString msg`), and a JavaScript string literal is truthy exactly when it
denotes a nonempty string, i.e. when the literal is not the two-character
text `""`. -/
def jsTruthyLiteral (s : String) : Bool := s ≠ jsString ""

/-- Denotation of the completion script evaluated by the spawned binding
task (the `fmt.Sprintf` template of chrome.go lines 297-305) on the page
tables: `if (error) { errors.get(seq)(error) } else { callbacks.get(seq)(result) }`
followed by deleting `seq` from both tables. -/
def runCompletion (seq : Nat) (re : String × String) (t : PageTables) :
    Settle × PageTables :=
  ((if jsTruthyLiteral re.2 then .reject re.2 else .resolve re.1), t.erase seq)

/-- The state of the spawned process and its Transport as `Kill`
(chrome.go lines 580-591) sees it: `wsDialed` = `c.ws != nil`,
`wsClosed` = the websocket has already been closed, `procExited` =
`c.Cmd.ProcessState` reports an exited process, `procKilled` = whether
`c.Cmd.Process.Kill()` has been issued. -/
structure ChromeProc where
  wsDialed : Bool
  wsClosed : Bool
  procExited : Bool
  procKilled : Bool
  deriving DecidableEq, Repr

/-- `websocket.Conn.Close` modelled: closing an open connection succeeds;
closing an already-closed connection fails with the underlying
`net.Conn` double-close error. -/
def wsClose (alreadyClosed : Bool) : Except String Unit :=
  if alreadyClosed then .error "use of closed network connection" else .ok ()

/-- The process-kill tail of `Kill`, chrome.go lines 587-590:
`if state := c.Cmd.ProcessState; state == nil || !state.Exited() { return c.Cmd.Process.Kill() }`. -/
def killProc (c : ChromeProc) : Except String ChromeProc :=
  if c.procExited then .ok c else .ok { c with procKilled := true }

/-- `Kill` (chrome.go lines 580-591): if a websocket exists, close it and
RETURN the close error if there is one (the process-kill step is never
reached in that case); otherwise fall through to the process kill. -/
def kill (c : ChromeProc) : Except String ChromeProc :=
  if c.wsDialed then
    match wsClose c.wsClosed with
    | .error e => .error e
    | .ok _ => killProc { c with wsClosed := true }
  else killProc c

/-- `contains` (chrome.go lines 616-623): linear search of a string in a
string slice. -/
def contains (arr : List String) (x : String) : Bool :=
  match arr with
  | [] => false
  | n :: rest => if x = n then true else contains rest x

/-- The outcomes of the external calls made by `NewChromeWithArgs`
(chrome.go lines 52-124), in program order: starting the process
(`StderrPipe` + `Start`), `readUntilMatch` on stderr (yielding the ws
URL), `websocket.Dial`, `findTarget`, `startSession`, the domain-enable
`Send` loop (its first failure, if any), and `getWindowForTarget`. -/
structure BootEnv where
  startProc : Except String Unit
  stderrMatch : Except String String
  dial : Except String Unit
  findTargetRes : Except String String
  startSessionRes : Except String String
  enableDomains : Except String Unit
  args : List String
  windowForTarget : Except String Nat
  deriving Repr

/-- The fields of a successfully constructed `Chrome` that
`NewChromeWithArgs` fills in: `c.target`, `c.session`, `c.window`
(0, the Go zero value, when `--headless` skips window resolution). -/
structure BootOk where
  target : String
  session : String
  window : Nat
  deriving DecidableEq, Repr

/-- `NewChromeWithArgs` (chrome.go lines 52-124) as a function of the
external outcomes; the second component records whether `c.Kill()` was
invoked on the spawned process before returning.  A process-start failure
returns before anything was spawned (no kill); every later failure calls
`c.Kill()` first and then returns the error. -/
def newChromeWithArgs (env : BootEnv) : Except String BootOk × Bool :=
  match env.startProc with
  | .error e => (.error e, false)
  | .ok _ =>
    match env.stderrMatch with
    | .error e => (.error e, true)
    | .ok _ =>
      match env.dial with
      | .error e => (.error e, true)
      | .ok _ =>
        match env.findTargetRes with
        | .error e => (.error e, true)
        | .ok target =>
          match env.startSessionRes with
          | .error e => (.error e, true)
          | .ok session =>
            match env.enableDomains with
            | .error e => (.error e, true)
            | .ok _ =>
              if contains env.args "--headless" then
                (.ok ⟨target, session, 0⟩, false)
              else
                match env.windowForTarget with
                | .error e => (.error e, true)
                | .ok w => (.ok ⟨target, session, w⟩, false)

/-- `Bounds` (chrome.go lines 194-201); the `WindowState` string type is
modelled as `String` ("normal", "maximized", "minimized", "fullscreen";
the empty string is the Go zero value of an unset field). -/
structure Bounds where
  left : Int := 0
  top : Int := 0
  width : Int := 0
  height : Int := 0
  windowState : String := ""
  deriving DecidableEq, Repr

/-- The `bounds` member of the parameter map sent by `SetBounds`: either
the full `Bounds` struct (all pixel fields plus state) or the minimal
one-key map `{windowState: ...}`. -/
inductive BoundsPayload where
  | full (b : Bounds)
  | stateOnly (windowState : String)
  deriving DecidableEq, Repr

/-- `SetBounds` (chrome.go lines 497-507): default an empty state to
"normal"; send the full struct for the "normal" state, and only the
`windowState` key for any other state. -/
def setBoundsPayload (b : Bounds) : BoundsPayload :=
  let b := if b.windowState = "" then { b with windowState := "normal" } else b
  if b.windowState ≠ "normal" then .stateOnly b.windowState else .full b

/-- `navigationHistory` (chrome.go lines 407-414): the current index and
the entries, each reduced to its `ID` field (the only field `goDelta`
uses).  Go ints are modelled as `Int` for the index arithmetic. -/
structure NavigationHistory where
  currentIndex : Int
  entries : List Nat
  deriving DecidableEq, Repr

/-- The `fmt.Errorf` message of `goDelta`'s bounds check
(chrome.go line 437). -/
def invalidDeltaMsg (delta n len : Int) : String :=
  "invalid delta " ++ toString delta ++ ", would navigate to " ++ toString n
    ++ " which is outside of history length of " ++ toString len

/-- `goDelta` (chrome.go lines 430-443) after a successful
`getNavigationHistory`: compute `n := history.CurrentIndex + delta`; if
`n < 0 || n >= len(history.Entries)` return the error without sending
anything; otherwise send `Page.navigateToHistoryEntry` with
`history.Entries[n].ID` — the `.ok` value is that entry id. -/
def goDelta (hist : NavigationHistory) (delta : Int) : Except String Nat :=
  let n := hist.currentIndex + delta
  if n < 0 ∨ (hist.entries.length : Int) ≤ n then
    .error (invalidDeltaMsg delta n hist.entries.length)
  else .ok (hist.entries.getD n.toNat 0)

/-- `Back` (chrome.go lines 446-448): `return c.goDelta(1)`. -/
def back (hist : NavigationHistory) : Except String Nat := goDelta hist 1

/-- `Forward` (chrome.go lines 451-453): `return c.goDelta(1)` — the same
delta as `Back`. -/
def forward (hist : NavigationHistory) : Except String Nat := goDelta hist 1

/-- Invariant of the pending table: every pending id was allocated by the
counter (hence is at most the counter), and ids are pairwise distinct. -/
def tableInv (s : CorrState) : Prop :=
  (∀ i ∈ s.pending, i ≤ s.counter) ∧ s.pending.Nodup

theorem tableInv_init : tableInv initState := by
  constructor
  · intro i hi
    simp [initState] at hi
  · simp [initState]

theorem tableInv_step (s : CorrState) (e : Event) (h : tableInv s) :
    tableInv (step s e) := by
  obtain ⟨hle, hnd⟩ := h
  have hfresh : s.counter + 1 ∉ s.pending := fun hmem =>
    Nat.not_succ_le_self s.counter (hle _ hmem)
  have hcons : ∀ i ∈ (s.counter + 1) :: s.pending, i ≤ s.counter + 1 := by
    intro i hi
    rcases List.mem_cons.mp hi with h1 | h2
    · exact le_of_eq h1
    · exact Nat.le_succ_of_le (hle i h2)
  cases e with
  | send m w =>
    cases m with
    | error msg =>
      exact ⟨fun i hi => Nat.le_succ_of_le (hle i hi), hnd⟩
    | ok u =>
      cases w with
      | error msg => exact ⟨hcons, List.nodup_cons.mpr ⟨hfresh, hnd⟩⟩
      | ok u2 => exact ⟨hcons, List.nodup_cons.mpr ⟨hfresh, hnd⟩⟩
  | reply i =>
    exact ⟨fun j hj => hle j (List.mem_of_mem_filter hj), hnd.filter _⟩
  | kill => exact ⟨hle, hnd⟩

theorem tableInv_run (tr : List Event) : tableInv (run tr) := by
  have h : ∀ s, tableInv s → tableInv (tr.foldl step s) := by
    induction tr with
    | nil => exact fun s hs => hs
    | cons e tl ih => exact fun s hs => ih (step s e) (tableInv_step s e hs)
  exact h initState tableInv_init

theorem escChar_ne_nil (c : Char) : escChar c ≠ [] := by
  unfold escChar
  repeat' split
  all_goals simp

theorem goJsonEscape_eq_nil_iff (l : List Char) : goJsonEscape l = [] ↔ l = [] := by
  cases l with
  | nil => simp [goJsonEscape]
  | cons c cs => simp [goJsonEscape, List.append_eq_nil, escChar_ne_nil c]

theorem jsString_ne_empty_literal (s : String) (h : s ≠ "") :
    jsString s ≠ jsString "" := by
  intro heq
  apply h
  have hd := congrArg String.data heq
  simp only [jsString] at hd
  have h2 : goJsonEscape s.data ++ ['"'] = goJsonEscape ("" : String).data ++ ['"'] :=
    List.cons.inj hd |>.2
  have hnil : ("" : String).data = [] := rfl
  rw [hnil] at h2
  simp only [goJsonEscape, List.nil_append] at h2
  have hlen := congrArg List.length h2
  simp only [List.length_append, List.length_cons, List.length_nil] at hlen
  have hzero : (goJsonEscape s.data).length = 0 := by omega
  have hesc : goJsonEscape s.data = [] := List.eq_nil_of_length_eq_zero hzero
  have hdata : s.data = [] := (goJsonEscape_eq_nil_iff s.data).mp hesc
  obtain ⟨l⟩ := s
  simp only at hdata
  rw [hdata]

/-- Claim C1, counterexample: with no top-level error, an exception-detail
payload AND a subtype-"error" object result both present, `readLoop`
(chrome.go lines 321-333) builds the error from the exception value, not
from the description — case (3) of the spec's list wins over case (2),
contradicting the claimed precedence. -/
theorem decode_exception_beats_subtype_error :
    decodeOutcome { errorMessage := "", resultType := "object",
                    resultSubtype := "error", resultDescription := "boom",
                    exceptionValue := some "42" }
      = Outcome.remoteError "42"
    ∧ decodeOutcomeSpecOrder { errorMessage := "", resultType := "object",
                               resultSubtype := "error", resultDescription := "boom",
                               exceptionValue := some "42" }
      = Outcome.remoteError "boom" := by
  constructor <;> rfl

/-- Claim C1, amended: the Dispatcher decodes a session-scoped reply with
precedence (1) top-level error field, (2) exception-detail payload,
(3) subtype-"error" object result, (4) typed result value, (5) generic
re-decode fallback; in particular when both a subtype-"error" result and
an exception-detail payload are present, the exception-detail case wins. -/
theorem decodeOutcome_precedence (m : TargetMsg) :
    (m.errorMessage ≠ "" → decodeOutcome m = Outcome.remoteError m.errorMessage)
    ∧ (∀ v, m.errorMessage = "" → m.exceptionValue = some v →
        decodeOutcome m = Outcome.remoteError v)
    ∧ (m.errorMessage = "" → m.exceptionValue = none →
        m.resultType = "object" → m.resultSubtype = "error" →
        decodeOutcome m = Outcome.remoteError m.resultDescription)
    ∧ (m.errorMessage = "" → m.exceptionValue = none →
        ¬(m.resultType = "object" ∧ m.resultSubtype = "error") →
        m.resultType ≠ "" → decodeOutcome m = Outcome.value m.resultValue)
    ∧ (m.errorMessage = "" → m.exceptionValue = none →
        m.resultType = "" → decodeOutcome m = Outcome.value m.rawResult) := by
  refine ⟨fun h1 => ?_, fun v h1 h2 => ?_, fun h1 h2 h3 h4 => ?_,
    fun h1 h2 h3 h4 => ?_, fun h1 h2 h3 => ?_⟩
  · simp [decodeOutcome, h1]
  · simp [decodeOutcome, h1, h2]
  · simp [decodeOutcome, h1, h2, h3, h4]
  · simp [decodeOutcome, h1, h2, h3, h4]
  · simp [decodeOutcome, h1, h2, h3]

/-- Claim C1, witness: the amended precedence instantiated on a concrete
message whose result carries only an exception-detail payload. -/
theorem decodeOutcome_precedence_witness :
    decodeOutcome { errorMessage := "", exceptionValue := some "ex" }
      = Outcome.remoteError "ex" :=
  (decodeOutcome_precedence
    { errorMessage := "", exceptionValue := some "ex" }).2.1 "ex" rfl rfl

/-- Claim C3, counterexample: an uncaught-exception event that carries a
nonzero request id is still written to the diagnostic log sink, because in
the guard on chrome.go line 273 the conjunction binds tighter than the
disjunction — so "messages carrying a request id are never routed to the
log sink" is false. -/
theorem exception_event_with_id_logged :
    route { id := 5, method := "Runtime.exceptionThrown" } = Route.log
    ∧ ({ id := 5, method := "Runtime.exceptionThrown" } : TargetMsg).id ≠ 0 := by
  constructor <;> decide

/-- Claim C3, amended: an inner session-scoped message is forwarded to the
diagnostic log sink exactly when it is a console event carrying no request
id, OR an uncaught-exception event regardless of its id (the `&&` of the
guard binds tighter than the `||`). -/
theorem log_route_iff (m : TargetMsg) :
    route m = Route.log ↔
      ((m.id = 0 ∧ m.method = "Runtime.consoleAPICalled")
        ∨ m.method = "Runtime.exceptionThrown") := by
  unfold route
  split
  · rename_i hc
    simpa using hc
  · split
    · rename_i hc hb
      simp [hc]
    · rename_i hc hb
      simp [hc]

/-- Claim C2, counterexample: after one successful `Send` the table holds
entry 3; connection teardown (`Kill`, whose body contains only the comment
`TODO: cancel all pending requests` for the table) removes nothing, so the
entry is never removed on teardown — "removed exactly once: either by the
Dispatcher upon the matching reply, or upon connection teardown" is false. -/
theorem pending_entry_survives_teardown :
    (run [Event.send (Except.ok ()) (Except.ok ()), Event.kill]).pending = [3]
    ∧ step (run [Event.send (Except.ok ()) (Except.ok ())]) Event.kill
        = run [Event.send (Except.ok ()) (Except.ok ())] := by
  constructor <;> decide

/-- Claim C2, amended: every PendingRequest table entry is inserted by
`Send` before the Transport write (and regardless of the write's outcome);
an entry is removed only by the Dispatcher upon the matching reply, at
most once; connection teardown leaves the table untouched (the source's
acknowledged TODO); an id is never reused while pending (all pending ids
are at most the counter, so the next allocated id is fresh, and entries
are pairwise distinct); and a reply whose id has no table entry is dropped
without changing any waiter. -/
theorem pending_table_amended (tr : List Event) (i : Nat) (w : Except String Unit)
    (habs : i ∉ (run tr).pending) :
    ((run tr).counter + 1) ∉ (run tr).pending
    ∧ (send (run tr) (Except.ok ()) w).1.pending
        = ((run tr).counter + 1) :: (run tr).pending
    ∧ step (run tr) (Event.reply i) = run tr
    ∧ step (run tr) Event.kill = run tr
    ∧ (∀ j ∈ (run tr).pending, j ∉ (step (run tr) (Event.reply j)).pending)
    ∧ (run tr).pending.Nodup := by
  obtain ⟨hle, hnd⟩ := tableInv_run tr
  refine ⟨?_, ?_, ?_, rfl, ?_, hnd⟩
  · intro hmem
    exact Nat.not_succ_le_self _ (hle _ hmem)
  · cases w with
    | error e => rfl
    | ok u => rfl
  · have hself : (run tr).pending.filter (· ≠ i) = (run tr).pending := by
      apply List.filter_eq_self.mpr
      intro a ha
      simp only [decide_eq_true_eq]
      exact fun hai => habs (hai ▸ ha)
    show { run tr with pending := (run tr).pending.filter (· ≠ i) } = run tr
    rw [hself]
  · intro j hj
    simp [step, List.mem_filter]

/-- Claim C2, witness: the amended statement instantiated after a single
successful send (pending table `[3]`), for the unmatched reply id 99. -/
theorem pending_table_amended_witness :
    step (run [Event.send (Except.ok ()) (Except.ok ())]) (Event.reply 99)
      = run [Event.send (Except.ok ()) (Except.ok ())] :=
  (pending_table_amended [Event.send (Except.ok ()) (Except.ok ())] 99
    (Except.ok ()) (by decide)).2.2.1

/-- Claim C4, counterexample: a handler failure whose error message is the
empty string serializes to the falsy JavaScript literal for the empty
string, so the completion script's `if (error)` test takes the resolve
branch — the page-side promise is resolved (with the empty result text),
not rejected, contradicting "rejects it with the serialized error message
on handler failure". -/
theorem empty_error_message_resolves :
    runCompletion 7 (bindingResultError (Except.error "")) ⟨[7], [7]⟩
        = (Settle.resolve "", (⟨[], []⟩ : PageTables))
    ∧ (runCompletion 7 (bindingResultError (Except.error "")) ⟨[7], [7]⟩).1
        ≠ Settle.reject (jsString "") := by
  constructor <;> decide

/-- Claim C4, amended: a binding-invocation notification (a
`Runtime.bindingCalled` inner message with no request id) whose name has a
registered handler makes the Dispatcher spawn the handler task and leaves
the pending table untouched (it is never treated as a pending-request
reply); the completion script evaluated by the spawned task resolves the
page-side promise with the serialized result on success, rejects it with
the serialized error message on a handler failure whose message is
nonempty (an empty message falls through to the resolve branch, see the
counterexample), and in every case deletes both the callbacks and errors
table entries for that sequence number. -/
theorem binding_invocation_behavior (bindings : List String) (s : CorrState)
    (m : TargetMsg) (seq : Nat) (b e : String) (t : PageTables)
    (hid : m.id = 0) (hm : m.method = "Runtime.bindingCalled")
    (hreg : m.paramsName ∈ bindings) (he : e ≠ "") :
    dispatchInner bindings s m = (s, DispatchEffect.spawnHandler m.paramsName)
    ∧ runCompletion seq (bindingResultError (Except.ok b)) t
        = (Settle.resolve b, t.erase seq)
    ∧ runCompletion seq (bindingResultError (Except.error e)) t
        = (Settle.reject (jsString e), t.erase seq) := by
  refine ⟨?_, ?_, ?_⟩
  · simp [dispatchInner, route, hid, hm, hreg]
  · simp [runCompletion, bindingResultError, jsTruthyLiteral]
  · simp [runCompletion, bindingResultError, jsTruthyLiteral,
      jsString_ne_empty_literal e he]

/-- Claim C4, witness: the amended statement instantiated on a registered
binding name with a failing handler whose message is "bad". -/
theorem binding_invocation_behavior_witness :
    runCompletion 1 (bindingResultError (Except.error "bad")) ⟨[1], [1]⟩
      = (Settle.reject (jsString "bad"), PageTables.erase ⟨[1], [1]⟩ 1) :=
  (binding_invocation_behavior ["f"] initState
    { id := 0, method := "Runtime.bindingCalled", paramsName := "f" }
    1 "42" "bad" ⟨[1], [1]⟩ rfl rfl (by decide) (by decide)).2.2

/-- Claim C5, counterexample: a first `Kill` on a live connection
succeeds, closing the Transport and force-killing the process; a second
`Kill` then fails, because `Kill` returns the error of closing the
already-closed Transport (chrome.go lines 581-585) — the close error IS
fatal, contradicting the claimed idempotence. -/
theorem kill_twice_fails :
    kill ⟨true, false, false, false⟩ = Except.ok ⟨true, true, false, true⟩
    ∧ kill ⟨true, true, false, true⟩
        = Except.error "use of closed network connection" := by
  constructor <;> rfl

/-- Claim C5, amended: `Kill` propagates Transport close errors: when the
Transport is already closed, `Kill` returns the double-close error and
never reaches the process-kill step (so calling `Kill` twice fails on the
second call); only when the close succeeds does it force-kill the process
if it has not already exited, or leave it alone if it has. -/
theorem kill_behavior (c : ChromeProc) (h1 : c.wsDialed = true) :
    (c.wsClosed = true → kill c = Except.error "use of closed network connection")
    ∧ (c.wsClosed = false → c.procExited = false →
        kill c = Except.ok { c with wsClosed := true, procKilled := true })
    ∧ (c.wsClosed = false → c.procExited = true →
        kill c = Except.ok { c with wsClosed := true }) := by
  refine ⟨fun h2 => ?_, fun h2 h3 => ?_, fun h2 h3 => ?_⟩ <;>
    simp [kill, wsClose, killProc, h1, h2, *]

/-- Claim C5, witness: the amended statement instantiated on the state a
first successful `Kill` leaves behind. -/
theorem kill_behavior_witness :
    kill ⟨true, true, false, true⟩
      = Except.error "use of closed network connection" :=
  (kill_behavior ⟨true, true, false, true⟩ rfl).1 rfl

/-- Claim C6: `Back` and `Forward` both invoke the navigation-by-delta
helper with the same delta value 1 (chrome.go lines 446-453), so on every
navigation-history state the two operations are extensionally equal — the
known duplicate-Forward defect. -/
theorem back_eq_forward (hist : NavigationHistory) :
    back hist = goDelta hist 1
    ∧ forward hist = goDelta hist 1
    ∧ back hist = forward hist :=
  ⟨rfl, rfl, rfl⟩

/-- Claim C7: when the process started and the debugging endpoint address
was matched on stderr but the Transport cannot be opened, construction
fails with the connect error and the spawned process is killed before
`NewChromeWithArgs` returns (chrome.go lines 78-83). -/
theorem dial_failure_kills_process (env : BootEnv) (u e : String)
    (h1 : env.startProc = Except.ok ()) (h2 : env.stderrMatch = Except.ok u)
    (h3 : env.dial = Except.error e) :
    newChromeWithArgs env = (Except.error e, true) := by
  simp [newChromeWithArgs, h1, h2, h3]

/-- Claim C7, witness: a concrete environment whose dial step fails. -/
theorem dial_failure_kills_process_witness :
    newChromeWithArgs
        { startProc := Except.ok (), stderrMatch := Except.ok "ws:",
          dial := Except.error "connect refused",
          findTargetRes := Except.ok "t", startSessionRes := Except.ok "s",
          enableDomains := Except.ok (), args := [],
          windowForTarget := Except.ok 0 }
      = (Except.error "connect refused", true) :=
  dial_failure_kills_process
    { startProc := Except.ok (), stderrMatch := Except.ok "ws:",
      dial := Except.error "connect refused",
      findTargetRes := Except.ok "t", startSessionRes := Except.ok "s",
      enableDomains := Except.ok (), args := [],
      windowForTarget := Except.ok 0 }
    "ws:" "connect refused" rfl rfl rfl

/-- Claim C8: for every `Bounds` whose window state is neither empty nor
"normal", `SetBounds` sends a payload whose bounds contain only the
`windowState` field; an empty window state defaults to "normal" and the
full pixel bounds are sent (as they are for an explicit "normal"). -/
theorem setBounds_payload_shape (b : Bounds) :
    (b.windowState ≠ "" → b.windowState ≠ "normal" →
      setBoundsPayload b = BoundsPayload.stateOnly b.windowState)
    ∧ (b.windowState = "" →
      setBoundsPayload b = BoundsPayload.full { b with windowState := "normal" })
    ∧ (b.windowState = "normal" → setBoundsPayload b = BoundsPayload.full b) := by
  refine ⟨fun h1 h2 => ?_, fun h1 => ?_, fun h1 => ?_⟩ <;>
    simp [setBoundsPayload, h1, *]

/-- Claim C8, witness: a maximized window is sent as the state-only
payload. -/
theorem setBounds_payload_shape_witness :
    setBoundsPayload { windowState := "maximized" }
      = BoundsPayload.stateOnly "maximized" :=
  (setBounds_payload_shape { windowState := "maximized" }).1
    (by decide) (by decide)

/-- Claim C9: when the Transport write inside `Send` fails, `Send` returns
the write error to the caller, but the waiter entry registered under the
freshly allocated id stays in the PendingRequest table — the error path of
chrome.go lines 360-366 performs no cleanup. -/
theorem send_write_failure_leaks_pending (s : CorrState) (e : String) :
    (send s (Except.ok ()) (Except.error e)).2 = SendResult.writeErr e
    ∧ (send s (Except.ok ()) (Except.error e)).1.pending
        = (s.counter + 1) :: s.pending
    ∧ (s.counter + 1) ∈ (send s (Except.ok ()) (Except.error e)).1.pending :=
  ⟨rfl, rfl, List.mem_cons_self _ _⟩

/-- Claim C10: whenever the current index plus the requested delta falls
outside `[0, number of entries)`, `goDelta` returns the invalid-delta
error without sending any navigate-to-history-entry command; in range, the
index used to pick the entry is within bounds and the entry's id is sent. -/
theorem goDelta_bounds (hist : NavigationHistory) (delta : Int) :
    (hist.currentIndex + delta < 0
        ∨ (hist.entries.length : Int) ≤ hist.currentIndex + delta →
      goDelta hist delta
        = Except.error (invalidDeltaMsg delta (hist.currentIndex + delta)
            hist.entries.length))
    ∧ (¬(hist.currentIndex + delta < 0
        ∨ (hist.entries.length : Int) ≤ hist.currentIndex + delta) →
      (hist.currentIndex + delta).toNat < hist.entries.length
      ∧ goDelta hist delta
          = Except.ok (hist.entries.getD (hist.currentIndex + delta).toNat 0)) := by
  constructor
  · intro h
    simp [goDelta, h]
  · intro h
    refine ⟨?_, by simp [goDelta, h]⟩
    push_neg at h
    obtain ⟨h1, h2⟩ := h
    omega

/-- Claim C10, witness: delta 5 from index 0 of a one-entry history is
rejected with the invalid-delta error. -/
theorem goDelta_bounds_witness :
    goDelta ⟨0, [10]⟩ 5 = Except.error (invalidDeltaMsg 5 (0 + 5) 1) :=
  (goDelta_bounds ⟨0, [10]⟩ 5).1 (by decide)

end Lorca
